import Mathlib

/-!
# Verification of the OpenMC Simulation Settings Registry (`src/settings.cpp`)

A shallow embedding of `read_settings` and the `settings` namespace globals
from `src/settings.cpp`.  The XML document layer (pugixml and
`xml_interface`), the error layer (`warning`/`fatal_error`), the string
utilities (`ends_with`) and the `SourceDistribution` constructor are external
collaborators; they are modelled through the interface the code consumes:
an `XmlDoc` record of optional fields, a warning list carried in the load
state, an `Except` error channel carrying the message and the state at the
abort point, and source nodes denoting the distribution their constructor
builds.
-/

/-- Modelled from the spec: run modes referenced by `settings::run_mode`
(the constant `RUN_MODE_PLOTTING` lives in `constants.h`, not under `src/`);
`read_settings` only distinguishes plotting from non-plotting. -/
inductive RunMode where
  | RUN_MODE_PLOTTING
  | RUN_MODE_FIXEDSOURCE
  | RUN_MODE_EIGENVALUE
deriving DecidableEq, Repr

/-- Modelled from the spec: the temperature-method enumeration
(`TEMPERATURE_NEAREST` / `TEMPERATURE_INTERPOLATION` are constants from
`constants.h`, not under `src/`). -/
inductive TemperatureMethod where
  | TEMPERATURE_NEAREST
  | TEMPERATURE_INTERPOLATION
deriving DecidableEq, Repr

/-- Modelled from the spec: spatial distributions (`distribution_spatial.h`,
not under `src/`); `read_settings` only constructs `SpatialPoint`. -/
inductive SpatialDistribution where
  | SpatialPoint (x y z : ℚ)
  | SpatialBox (tag : ℕ)
deriving DecidableEq, Repr

/-- Modelled from the spec: angular distributions (`distribution_multi.h`,
not under `src/`); `read_settings` only constructs `Isotropic`. -/
inductive AngleDistribution where
  | Isotropic
  | Monodirectional (tag : ℕ)
deriving DecidableEq, Repr

/-- Modelled from the spec: energy distributions (`distribution.h`, not
under `src/`); `read_settings` only constructs `Watt a b`. -/
inductive EnergyDistribution where
  | Watt (a b : ℚ)
  | Discrete (tag : ℕ)
deriving DecidableEq, Repr

/-- Modelled from the spec: a `SourceDistribution` (from `source.h`, not
under `src/`) is a triple of spatial, angular and energy distributions. -/
structure SourceDistribution where
  space : SpatialDistribution
  angle : AngleDistribution
  energy : EnergyDistribution
deriving DecidableEq, Repr

/-- The `output` child node: `read_settings` reads its optional `path`
child (`settings.cpp` lines 112-124). -/
structure OutputNode where
  path : Option String
deriving DecidableEq, Repr

/-- The settings document, seen through the node-access capabilities the
code consumes: `check_for_node`/`get_node_value` pairs become optional
fields (numeric nodes carry the value `std::stod` parses, boolean nodes the
value `get_node_value_bool` parses), `children("source")` becomes the list
of distributions the external `SourceDistribution` constructor builds from
the source nodes, in document order. -/
structure XmlDoc where
  cross_sections : Option String
  multipole_library : Option String
  output : Option OutputNode
  temperature_default : Option ℚ
  temperature_method : Option String
  temperature_tolerance : Option ℚ
  temperature_multipole : Option Bool
  temperature_range : Option (List ℚ)
  sources : List SourceDistribution
deriving DecidableEq, Repr

/-- The mutable fields of the `settings` namespace (and the global
`external_sources` from `source.h`) that `read_settings` touches, plus the
defaulted fields the spec's registry invariants mention
(`settings.cpp` lines 49-74). -/
structure Settings where
  path_cross_sections : String
  path_multipole : String
  path_output : String
  run_mode : RunMode
  energy_cutoff : List ℚ
  temperature_method : TemperatureMethod
  temperature_tolerance : ℚ
  temperature_default : ℚ
  temperature_multipole : Bool
  temperature_range : ℚ × ℚ
  external_sources : List SourceDistribution
deriving DecidableEq, Repr

/-- The default-constructed registry (`settings.cpp` lines 41, 53-55 and
62-71).  `int run_mode;` has no initializer in the source, so the default
registry is parameterized by it; `external_sources` default-constructs to
an empty vector. -/
def defaultSettings (rm : RunMode) : Settings where
  path_cross_sections := ""
  path_multipole := ""
  path_output := ""
  run_mode := rm
  energy_cutoff := [0.0, 1000.0, 0.0, 0.0]
  temperature_method := TemperatureMethod.TEMPERATURE_NEAREST
  temperature_tolerance := 10.0
  temperature_default := 293.6
  temperature_multipole := false
  temperature_range := (0.0, 0.0)
  external_sources := []

/-- Load state: the registry plus the warnings emitted so far by the
external `warning` collaborator. -/
structure LoadState where
  s : Settings
  warnings : List String
deriving DecidableEq, Repr

/-- A `fatal_error` abort: the message, and the load state at the moment
the error is raised (the C++ globals keep the values written so far). -/
structure Fatal where
  msg : String
  st : LoadState
deriving DecidableEq, Repr

/-- Modelled from the spec: `ends_with` from `string_utils.h` (not under
`src/`): whether the string ends with the given suffix. -/
def ends_with (s suffix : String) : Bool :=
  suffix.data.isSuffixOf s.data

/-- The inline path normalization (`settings.cpp` lines 106-108 and
120-123): append `"/"` when the string does not already end with it. -/
def normalize_path (p : String) : String :=
  if ends_with p "/" then p else p ++ "/"

/-- ASCII lowercasing of one character, as the document-access layer
applies it. -/
def lowerChar (c : Char) : Char :=
  if 'A' ≤ c ∧ c ≤ 'Z' then Char.ofNat (c.toNat + 32) else c

/-- ASCII whitespace, as the document-access layer trims it. -/
def isSpaceChar (c : Char) : Bool :=
  c = ' ' ∨ c = '\t' ∨ c = '\n' ∨ c = '\r'

/-- Modelled from the spec: the trim-then-lowercase normalization applied
by `get_node_value(node, name, true, true)` in `xml_interface` (not under
`src/`): strip leading and trailing whitespace, then lowercase. -/
def trimLower (s : String) : String :=
  String.mk ((((s.data.dropWhile isSpaceChar).reverse.dropWhile isSpaceChar).reverse).map lowerChar)

/-- The deprecation warning for `cross_sections` (`settings.cpp`
lines 88-92). -/
def crossSectionsWarning : String :=
  "Setting cross_sections in settings.xml has been deprecated. The cross_sections are now set in materials.xml and the cross_sections input to materials.xml and the OPENMC_CROSS_SECTIONS environment variable will take precendent over setting cross_sections in settings.xml."

/-- The deprecation warning for `multipole_library` (`settings.cpp`
lines 99-103). -/
def multipoleWarning : String :=
  "Setting multipole_library in settings.xml has been deprecated. The multipole_library is now set in materials.xml and the multipole_library input to materials.xml and the OPENMC_MULTIPOLE_LIBRARY environment variable will take precendent over setting multipole_library in settings.xml."

/-- `settings.cpp` lines 87-94: deprecated `cross_sections` node. -/
def stepCrossSections (root : XmlDoc) (st : LoadState) : LoadState :=
  match root.cross_sections with
  | some v =>
      { s := { st.s with path_cross_sections := v },
        warnings := st.warnings ++ [crossSectionsWarning] }
  | none => st

/-- `settings.cpp` lines 96-109: deprecated `multipole_library` node and
its normalization, skipped entirely in plotting mode. -/
def stepMultipole (root : XmlDoc) (st : LoadState) : LoadState :=
  if st.s.run_mode ≠ RunMode.RUN_MODE_PLOTTING then
    let st1 : LoadState :=
      match root.multipole_library with
      | some v =>
          { s := { st.s with path_multipole := v },
            warnings := st.warnings ++ [multipoleWarning] }
      | none => st
    { st1 with s := { st1.s with path_multipole := normalize_path st1.s.path_multipole } }
  else st

/-- `settings.cpp` lines 111-124: the `output/path` node, normalized. -/
def stepOutput (root : XmlDoc) (st : LoadState) : LoadState :=
  match root.output with
  | some node_output =>
      match node_output.path with
      | some v =>
          { st with s := { st.s with path_output := normalize_path v } }
      | none => st
  | none => st

/-- `settings.cpp` lines 127-129: `temperature_default`. -/
def stepTemperatureDefault (root : XmlDoc) (st : LoadState) : LoadState :=
  match root.temperature_default with
  | some v => { st with s := { st.s with temperature_default := v } }
  | none => st

/-- `settings.cpp` lines 130-139: `temperature_method`; an unrecognized
token is a `fatal_error` carrying the state at the abort point. -/
def stepTemperatureMethod (root : XmlDoc) (st : LoadState) : Except Fatal LoadState :=
  match root.temperature_method with
  | some v =>
      let temp_str := trimLower v
      if temp_str = "nearest" then
        Except.ok { st with s := { st.s with temperature_method := TemperatureMethod.TEMPERATURE_NEAREST } }
      else if temp_str = "interpolation" then
        Except.ok { st with s := { st.s with temperature_method := TemperatureMethod.TEMPERATURE_INTERPOLATION } }
      else
        Except.error { msg := "Unknown temperature method: " ++ temp_str, st := st }
  | none => Except.ok st

/-- `settings.cpp` lines 140-142: `temperature_tolerance`. -/
def stepTemperatureTolerance (root : XmlDoc) (st : LoadState) : LoadState :=
  match root.temperature_tolerance with
  | some v => { st with s := { st.s with temperature_tolerance := v } }
  | none => st

/-- `settings.cpp` lines 143-145: `temperature_multipole`. -/
def stepTemperatureMultipole (root : XmlDoc) (st : LoadState) : LoadState :=
  match root.temperature_multipole with
  | some v => { st with s := { st.s with temperature_multipole := v } }
  | none => st

/-- `settings.cpp` lines 146-150: `temperature_range`; the source indexes
`range[0]` and `range[1]` unchecked (undefined behavior on shorter arrays,
flagged open in the spec), so the embedding is faithful only on arrays with
at least two entries. -/
def stepTemperatureRange (root : XmlDoc) (st : LoadState) : LoadState :=
  match root.temperature_range with
  | some range =>
      { st with s := { st.s with temperature_range := (range.getD 0 0, range.getD 1 0) } }
  | none => st

/-- The default source synthesized when no `source` node is present
(`settings.cpp` lines 162-166). -/
def defaultSource : SourceDistribution where
  space := SpatialDistribution.SpatialPoint 0.0 0.0 0.0
  angle := AngleDistribution.Isotropic
  energy := EnergyDistribution.Watt 0.988 2.249e-6

/-- `settings.cpp` lines 156-168: append one `SourceDistribution` per
`source` node in document order, then push the default iff the list is
empty. -/
def stepSources (root : XmlDoc) (st : LoadState) : LoadState :=
  let st1 := { st with s := { st.s with external_sources := st.s.external_sources ++ root.sources } }
  if st1.s.external_sources.isEmpty then
    { st1 with s := { st1.s with external_sources := st1.s.external_sources ++ [defaultSource] } }
  else st1

/-- `read_settings` (`settings.cpp` lines 82-169): the phases in source
order, aborting at the first `fatal_error`. -/
def read_settings (root : XmlDoc) (st : LoadState) : Except Fatal LoadState := do
  let st := stepCrossSections root st
  let st := stepMultipole root st
  let st := stepOutput root st
  let st := stepTemperatureDefault root st
  let st ← stepTemperatureMethod root st
  let st := stepTemperatureTolerance root st
  let st := stepTemperatureMultipole root st
  let st := stepTemperatureRange root st
  pure (stepSources root st)

/-- An empty settings document (every optional node absent, no sources). -/
def emptyDoc : XmlDoc where
  cross_sections := none
  multipole_library := none
  output := none
  temperature_default := none
  temperature_method := none
  temperature_tolerance := none
  temperature_multipole := none
  temperature_range := none
  sources := []

/-- Whether the document's `temperature_method` node, if present, carries a
recognized token: exactly the condition under which `read_settings` does
not abort. -/
def tempMethodOkB (root : XmlDoc) : Bool :=
  match root.temperature_method with
  | none => true
  | some v => trimLower v = "nearest" || trimLower v = "interpolation"

/-- The registry immediately after default construction, before any
document is applied, in a non-plotting run. -/
def initState : LoadState :=
  { s := defaultSettings RunMode.RUN_MODE_EIGENVALUE, warnings := [] }

/-- Result state of loading the empty document from the default registry. -/
def emptyDocRes : LoadState :=
  { s := { defaultSettings RunMode.RUN_MODE_EIGENVALUE with
             path_multipole := "/", external_sources := [defaultSource] },
    warnings := [] }

/-- A sample user-configured source, distinct from the synthesized default. -/
def sampleSource : SourceDistribution where
  space := SpatialDistribution.SpatialBox 7
  angle := AngleDistribution.Monodirectional 0
  energy := EnergyDistribution.Discrete 3

/-- A document whose only content is one `source` node. -/
def oneSourceDoc : XmlDoc :=
  { emptyDoc with sources := [sampleSource] }

/-- Result state of loading `oneSourceDoc` from the default registry. -/
def oneSourceRes : LoadState :=
  { s := { defaultSettings RunMode.RUN_MODE_EIGENVALUE with
             path_multipole := "/", external_sources := [sampleSource] },
    warnings := [] }

/-- A document whose `temperature_method` token is unrecognized (and needs
trimming and lowercasing before the lookup). -/
def bogusDoc : XmlDoc :=
  { emptyDoc with temperature_method := some " Bogus " }

/-- The fatal-error value produced by loading `bogusDoc` from the default
registry. -/
def bogusErr : Fatal :=
  { msg := "Unknown temperature method: bogus",
    st := { s := { defaultSettings RunMode.RUN_MODE_EIGENVALUE with path_multipole := "/" },
            warnings := [] } }

/-- A document selecting the interpolation temperature method (with a
capital letter, to exercise the lowercasing). -/
def interpDoc : XmlDoc :=
  { emptyDoc with temperature_method := some "Interpolation" }

/-- Result state of loading `interpDoc` from the default registry. -/
def interpRes : LoadState :=
  { s := { defaultSettings RunMode.RUN_MODE_EIGENVALUE with
             path_multipole := "/",
             temperature_method := TemperatureMethod.TEMPERATURE_INTERPOLATION,
             external_sources := [defaultSource] },
    warnings := [] }

/-- A document with a deprecated `cross_sections` node whose value has no
trailing separator. -/
def csDoc : XmlDoc :=
  { emptyDoc with cross_sections := some "xs_dir" }

/-- Result state of loading `csDoc` from the default registry. -/
def csRes : LoadState :=
  { s := { defaultSettings RunMode.RUN_MODE_EIGENVALUE with
             path_cross_sections := "xs_dir", path_multipole := "/",
             external_sources := [defaultSource] },
    warnings := [crossSectionsWarning] }

/-- A document with a deprecated `multipole_library` node. -/
def plotDoc : XmlDoc :=
  { emptyDoc with multipole_library := some "wmp" }

/-- The registry immediately after default construction in a plotting run. -/
def plotInit : LoadState :=
  { s := defaultSettings RunMode.RUN_MODE_PLOTTING, warnings := [] }

/-- Result state of loading `plotDoc` from the default registry in a
plotting run: the whole multipole block is skipped. -/
def plotRes : LoadState :=
  { s := { defaultSettings RunMode.RUN_MODE_PLOTTING with
             external_sources := [defaultSource] },
    warnings := [] }

/-- A document with a descending `temperature_range` array. -/
def rangeDoc : XmlDoc :=
  { emptyDoc with temperature_range := some [5, 1] }

/-- Result state of loading `rangeDoc` from the default registry. -/
def rangeRes : LoadState :=
  { s := { defaultSettings RunMode.RUN_MODE_EIGENVALUE with
             path_multipole := "/", temperature_range := (5, 1),
             external_sources := [defaultSource] },
    warnings := [] }

/-- A document that sets every path and temperature field and then hits the
unknown-temperature-method fatal error. -/
def fullBadDoc : XmlDoc where
  cross_sections := some "xs.xml"
  multipole_library := some "wmp"
  output := some { path := some "out" }
  temperature_default := some 600
  temperature_method := some "celsius"
  temperature_tolerance := none
  temperature_multipole := none
  temperature_range := none
  sources := []

/-- The fatal-error value produced by loading `fullBadDoc` from the default
registry: every earlier field has already been overwritten. -/
def fullBadErr : Fatal :=
  { msg := "Unknown temperature method: celsius",
    st := { s := { defaultSettings RunMode.RUN_MODE_EIGENVALUE with
                     path_cross_sections := "xs.xml", path_multipole := "wmp/",
                     path_output := "out/", temperature_default := 600 },
            warnings := [crossSectionsWarning, multipoleWarning] } }

/-! ## Frame lemmas: which fields each phase leaves untouched -/

theorem stepCrossSections_frame (root : XmlDoc) (st : LoadState) :
    (stepCrossSections root st).s.path_multipole = st.s.path_multipole ∧
    (stepCrossSections root st).s.path_output = st.s.path_output ∧
    (stepCrossSections root st).s.run_mode = st.s.run_mode ∧
    (stepCrossSections root st).s.temperature_default = st.s.temperature_default ∧
    (stepCrossSections root st).s.external_sources = st.s.external_sources := by
  unfold stepCrossSections
  cases root.cross_sections <;> exact ⟨rfl, rfl, rfl, rfl, rfl⟩

theorem stepMultipole_frame (root : XmlDoc) (st : LoadState) :
    (stepMultipole root st).s.path_cross_sections = st.s.path_cross_sections ∧
    (stepMultipole root st).s.path_output = st.s.path_output ∧
    (stepMultipole root st).s.run_mode = st.s.run_mode ∧
    (stepMultipole root st).s.temperature_default = st.s.temperature_default ∧
    (stepMultipole root st).s.external_sources = st.s.external_sources := by
  unfold stepMultipole
  cases root.multipole_library <;> split <;> exact ⟨rfl, rfl, rfl, rfl, rfl⟩

theorem stepMultipole_warnings (root : XmlDoc) (st : LoadState) :
    (stepMultipole root st).warnings = st.warnings ∨
    (stepMultipole root st).warnings = st.warnings ++ [multipoleWarning] := by
  unfold stepMultipole
  cases root.multipole_library <;> split
  · exact Or.inl rfl
  · exact Or.inl rfl
  · exact Or.inr rfl
  · exact Or.inl rfl

theorem stepMultipole_plotting (root : XmlDoc) (st : LoadState)
    (h : st.s.run_mode = RunMode.RUN_MODE_PLOTTING) :
    stepMultipole root st = st := by
  unfold stepMultipole
  simp [h]

theorem stepOutput_frame (root : XmlDoc) (st : LoadState) :
    (stepOutput root st).s.path_cross_sections = st.s.path_cross_sections ∧
    (stepOutput root st).s.path_multipole = st.s.path_multipole ∧
    (stepOutput root st).s.run_mode = st.s.run_mode ∧
    (stepOutput root st).s.temperature_default = st.s.temperature_default ∧
    (stepOutput root st).s.external_sources = st.s.external_sources ∧
    (stepOutput root st).warnings = st.warnings := by
  unfold stepOutput
  cases root.output with
  | none => exact ⟨rfl, rfl, rfl, rfl, rfl, rfl⟩
  | some node =>
    cases node with
    | mk p => cases p <;> exact ⟨rfl, rfl, rfl, rfl, rfl, rfl⟩

theorem stepTemperatureDefault_frame (root : XmlDoc) (st : LoadState) :
    (stepTemperatureDefault root st).s.path_cross_sections = st.s.path_cross_sections ∧
    (stepTemperatureDefault root st).s.path_multipole = st.s.path_multipole ∧
    (stepTemperatureDefault root st).s.path_output = st.s.path_output ∧
    (stepTemperatureDefault root st).s.run_mode = st.s.run_mode ∧
    (stepTemperatureDefault root st).s.external_sources = st.s.external_sources ∧
    (stepTemperatureDefault root st).warnings = st.warnings := by
  unfold stepTemperatureDefault
  cases root.temperature_default <;> exact ⟨rfl, rfl, rfl, rfl, rfl, rfl⟩

theorem stepTemperatureTolerance_frame (root : XmlDoc) (st : LoadState) :
    (stepTemperatureTolerance root st).s.path_cross_sections = st.s.path_cross_sections ∧
    (stepTemperatureTolerance root st).s.path_multipole = st.s.path_multipole ∧
    (stepTemperatureTolerance root st).s.temperature_method = st.s.temperature_method ∧
    (stepTemperatureTolerance root st).s.temperature_range = st.s.temperature_range ∧
    (stepTemperatureTolerance root st).s.external_sources = st.s.external_sources ∧
    (stepTemperatureTolerance root st).warnings = st.warnings := by
  unfold stepTemperatureTolerance
  cases root.temperature_tolerance <;> exact ⟨rfl, rfl, rfl, rfl, rfl, rfl⟩

theorem stepTemperatureMultipole_frame (root : XmlDoc) (st : LoadState) :
    (stepTemperatureMultipole root st).s.path_cross_sections = st.s.path_cross_sections ∧
    (stepTemperatureMultipole root st).s.path_multipole = st.s.path_multipole ∧
    (stepTemperatureMultipole root st).s.temperature_method = st.s.temperature_method ∧
    (stepTemperatureMultipole root st).s.temperature_range = st.s.temperature_range ∧
    (stepTemperatureMultipole root st).s.external_sources = st.s.external_sources ∧
    (stepTemperatureMultipole root st).warnings = st.warnings := by
  unfold stepTemperatureMultipole
  cases root.temperature_multipole <;> exact ⟨rfl, rfl, rfl, rfl, rfl, rfl⟩

theorem stepTemperatureRange_frame (root : XmlDoc) (st : LoadState) :
    (stepTemperatureRange root st).s.path_cross_sections = st.s.path_cross_sections ∧
    (stepTemperatureRange root st).s.path_multipole = st.s.path_multipole ∧
    (stepTemperatureRange root st).s.temperature_method = st.s.temperature_method ∧
    (stepTemperatureRange root st).s.external_sources = st.s.external_sources ∧
    (stepTemperatureRange root st).warnings = st.warnings := by
  unfold stepTemperatureRange
  cases root.temperature_range <;> exact ⟨rfl, rfl, rfl, rfl, rfl⟩

theorem stepSources_frame (root : XmlDoc) (st : LoadState) :
    (stepSources root st).s.path_cross_sections = st.s.path_cross_sections ∧
    (stepSources root st).s.path_multipole = st.s.path_multipole ∧
    (stepSources root st).s.temperature_method = st.s.temperature_method ∧
    (stepSources root st).s.temperature_range = st.s.temperature_range ∧
    (stepSources root st).warnings = st.warnings := by
  unfold stepSources
  dsimp only
  split <;> exact ⟨rfl, rfl, rfl, rfl, rfl⟩

theorem stepTemperatureMethod_ok_frame (root : XmlDoc) (st st' : LoadState)
    (h : stepTemperatureMethod root st = Except.ok st') :
    st'.s.path_cross_sections = st.s.path_cross_sections ∧
    st'.s.path_multipole = st.s.path_multipole ∧
    st'.s.temperature_range = st.s.temperature_range ∧
    st'.s.external_sources = st.s.external_sources ∧
    st'.warnings = st.warnings := by
  unfold stepTemperatureMethod at h
  cases hv : root.temperature_method with
  | none =>
    rw [hv] at h
    injection h with h
    subst h
    exact ⟨rfl, rfl, rfl, rfl, rfl⟩
  | some v =>
    rw [hv] at h
    by_cases h1 : trimLower v = "nearest"
    · simp only [h1, if_true] at h
      injection h with h
      subst h
      exact ⟨rfl, rfl, rfl, rfl, rfl⟩
    · by_cases h2 : trimLower v = "interpolation"
      · simp only [h1, h2, if_false, if_true] at h
        injection h with h
        subst h
        exact ⟨rfl, rfl, rfl, rfl, rfl⟩
      · simp only [h1, h2, if_false] at h
        exact absurd h (by simp)

theorem read_settings_eq (root : XmlDoc) (st : LoadState) :
    read_settings root st =
      match stepTemperatureMethod root (stepTemperatureDefault root (stepOutput root
          (stepMultipole root (stepCrossSections root st)))) with
      | Except.ok st4 =>
          Except.ok (stepSources root (stepTemperatureRange root
            (stepTemperatureMultipole root (stepTemperatureTolerance root st4))))
      | Except.error e => Except.error e := by
  unfold read_settings
  dsimp only
  cases stepTemperatureMethod root (stepTemperatureDefault root (stepOutput root
      (stepMultipole root (stepCrossSections root st)))) <;> rfl

/-- Appending the separator always yields a string that ends with it. -/
theorem ends_with_append_slash (p : String) : ends_with (p ++ "/") "/" = true := by
  unfold ends_with
  have h : (p ++ "/").data = p.data ++ ['/'] := by
    simp [String.data_append]
  rw [h, List.isSuffixOf_iff_suffix]
  exact List.suffix_append p.data ['/']

theorem stepTemperatureMethod_nearest (root : XmlDoc) (st : LoadState) (v : String)
    (hv : root.temperature_method = some v) (h1 : trimLower v = "nearest") :
    stepTemperatureMethod root st =
      Except.ok { st with s := { st.s with temperature_method := TemperatureMethod.TEMPERATURE_NEAREST } } := by
  unfold stepTemperatureMethod
  rw [hv]
  simp only [h1, if_true]

theorem stepTemperatureMethod_interpolation (root : XmlDoc) (st : LoadState) (v : String)
    (hv : root.temperature_method = some v) (h2 : trimLower v = "interpolation") :
    stepTemperatureMethod root st =
      Except.ok { st with s := { st.s with temperature_method := TemperatureMethod.TEMPERATURE_INTERPOLATION } } := by
  unfold stepTemperatureMethod
  rw [hv]
  simp [h2]

theorem stepTemperatureMethod_unknown (root : XmlDoc) (st : LoadState) (v : String)
    (hv : root.temperature_method = some v)
    (h1 : trimLower v ≠ "nearest") (h2 : trimLower v ≠ "interpolation") :
    stepTemperatureMethod root st =
      Except.error { msg := "Unknown temperature method: " ++ trimLower v, st := st } := by
  unfold stepTemperatureMethod
  rw [hv]
  simp only [h1, h2, if_false]

theorem stepTemperatureMethod_none (root : XmlDoc) (st : LoadState)
    (hv : root.temperature_method = none) :
    stepTemperatureMethod root st = Except.ok st := by
  unfold stepTemperatureMethod
  rw [hv]

theorem stepTemperatureMethod_ok_of (root : XmlDoc) (st : LoadState)
    (h : tempMethodOkB root = true) :
    ∃ st', stepTemperatureMethod root st = Except.ok st' := by
  unfold tempMethodOkB at h
  cases hv : root.temperature_method with
  | none => exact ⟨st, stepTemperatureMethod_none root st hv⟩
  | some v =>
    rw [hv] at h
    simp only [Bool.or_eq_true, decide_eq_true_eq] at h
    cases h with
    | inl h1 => exact ⟨_, stepTemperatureMethod_nearest root st v hv h1⟩
    | inr h2 => exact ⟨_, stepTemperatureMethod_interpolation root st v hv h2⟩

/-- The state after the four path/temperature-default phases keeps the
incoming `external_sources`. -/
theorem pre_method_external_sources (root : XmlDoc) (st : LoadState) :
    (stepTemperatureDefault root (stepOutput root (stepMultipole root
        (stepCrossSections root st)))).s.external_sources = st.s.external_sources := by
  rw [(stepTemperatureDefault_frame root _).2.2.2.2.1,
      (stepOutput_frame root _).2.2.2.2.1,
      (stepMultipole_frame root _).2.2.2.2,
      (stepCrossSections_frame root st).2.2.2.2]

/-- The three phases after the temperature method keep `external_sources`. -/
theorem post_method_external_sources (root : XmlDoc) (st : LoadState) :
    (stepTemperatureRange root (stepTemperatureMultipole root
        (stepTemperatureTolerance root st))).s.external_sources = st.s.external_sources := by
  rw [(stepTemperatureRange_frame root _).2.2.2.1,
      (stepTemperatureMultipole_frame root _).2.2.2.2.1,
      (stepTemperatureTolerance_frame root st).2.2.2.2.1]

/-- C1: on a document with zero `source` nodes (and `external_sources`
initially empty), a successful `read_settings` leaves exactly one source:
a point at the origin, isotropic, with a Watt(0.988, 2.249e-6) spectrum. -/
theorem read_settings_zero_sources_default (root : XmlDoc) (st : LoadState) (res : LoadState)
    (hsrc : root.sources = []) (hempty : st.s.external_sources = [])
    (hok : read_settings root st = Except.ok res) :
    res.s.external_sources = [defaultSource] ∧
    defaultSource.space = SpatialDistribution.SpatialPoint 0.0 0.0 0.0 ∧
    defaultSource.angle = AngleDistribution.Isotropic ∧
    defaultSource.energy = EnergyDistribution.Watt 0.988 2.249e-6 := by
  refine ⟨?_, rfl, rfl, rfl⟩
  rw [read_settings_eq] at hok
  cases htm : stepTemperatureMethod root (stepTemperatureDefault root (stepOutput root
      (stepMultipole root (stepCrossSections root st)))) with
  | error e =>
    rw [htm] at hok
    exact absurd hok (by simp)
  | ok st4 =>
    rw [htm] at hok
    injection hok with hok
    have h4 : st4.s.external_sources = [] := by
      rw [(stepTemperatureMethod_ok_frame root _ st4 htm).2.2.2.1,
          pre_method_external_sources root st, hempty]
    have h7 : (stepTemperatureRange root (stepTemperatureMultipole root
        (stepTemperatureTolerance root st4))).s.external_sources = [] := by
      rw [post_method_external_sources root st4, h4]
    rw [← hok]
    unfold stepSources
    dsimp only
    simp [hsrc, h7]

/-- C1 applied to the empty document starting from the default registry. -/
theorem read_settings_zero_sources_default_witness :
    read_settings emptyDoc { s := defaultSettings RunMode.RUN_MODE_EIGENVALUE, warnings := [] } =
      Except.ok emptyDocRes ∧
    emptyDocRes.s.external_sources = [defaultSource] := by
  have hok : read_settings emptyDoc { s := defaultSettings RunMode.RUN_MODE_EIGENVALUE, warnings := [] } =
      Except.ok emptyDocRes := by rfl
  exact ⟨hok, (read_settings_zero_sources_default emptyDoc _ emptyDocRes rfl rfl hok).1⟩

/-- C2: on a document with N ≥ 1 `source` nodes (and `external_sources`
initially empty), a successful `read_settings` yields exactly the N
document sources, in document order, with no synthesized default appended. -/
theorem read_settings_n_sources (root : XmlDoc) (st : LoadState) (res : LoadState)
    (hne : root.sources ≠ []) (hempty : st.s.external_sources = [])
    (hok : read_settings root st = Except.ok res) :
    res.s.external_sources = root.sources ∧
    res.s.external_sources.length = root.sources.length := by
  rw [read_settings_eq] at hok
  cases htm : stepTemperatureMethod root (stepTemperatureDefault root (stepOutput root
      (stepMultipole root (stepCrossSections root st)))) with
  | error e =>
    rw [htm] at hok
    exact absurd hok (by simp)
  | ok st4 =>
    rw [htm] at hok
    injection hok with hok
    have h4 : st4.s.external_sources = [] := by
      rw [(stepTemperatureMethod_ok_frame root _ st4 htm).2.2.2.1,
          pre_method_external_sources root st, hempty]
    have h7 : (stepTemperatureRange root (stepTemperatureMultipole root
        (stepTemperatureTolerance root st4))).s.external_sources = [] := by
      rw [post_method_external_sources root st4, h4]
    have hres : res.s.external_sources = root.sources := by
      rw [← hok]
      unfold stepSources
      dsimp only
      rw [h7]
      simp [List.isEmpty_iff, hne]
    exact ⟨hres, by rw [hres]⟩

/-- C2 applied to a one-source document from the default registry. -/
theorem read_settings_n_sources_witness :
    read_settings oneSourceDoc { s := defaultSettings RunMode.RUN_MODE_EIGENVALUE, warnings := [] } =
      Except.ok oneSourceRes ∧
    oneSourceRes.s.external_sources = oneSourceDoc.sources ∧
    oneSourceRes.s.external_sources.length = 1 := by
  have hok : read_settings oneSourceDoc { s := defaultSettings RunMode.RUN_MODE_EIGENVALUE, warnings := [] } =
      Except.ok oneSourceRes := by rfl
  have h := read_settings_n_sources oneSourceDoc _ oneSourceRes (by decide) rfl hok
  exact ⟨hok, h.1, by rw [h.2]; rfl⟩

/-- C4: the path normalization appends exactly one separator when absent,
is the identity on strings already ending in the separator, and is
idempotent. -/
theorem normalize_path_spec (s : String) :
    (ends_with s "/" = false → normalize_path s = s ++ "/") ∧
    (ends_with s "/" = true → normalize_path s = s) ∧
    normalize_path (normalize_path s) = normalize_path s := by
  refine ⟨?_, ?_, ?_⟩
  · intro h
    simp [normalize_path, h]
  · intro h
    simp [normalize_path, h]
  · unfold normalize_path
    split
    · simp_all
    · simp [ends_with_append_slash]

/-- C4 applied to concrete strings with and without a trailing separator. -/
theorem normalize_path_spec_witness :
    normalize_path "out" = "out" ++ "/" ∧ normalize_path "out/" = "out/" :=
  ⟨(normalize_path_spec "out").1 (by decide), (normalize_path_spec "out/").2.1 (by decide)⟩

/-- C5: the default-constructed registry has nearest-temperature lookup,
tolerance 10.0, default temperature 293.6 and energy cutoffs
{0.0, 1000.0, 0.0, 0.0}. -/
theorem default_settings_values (rm : RunMode) :
    (defaultSettings rm).temperature_method = TemperatureMethod.TEMPERATURE_NEAREST ∧
    (defaultSettings rm).temperature_tolerance = 10.0 ∧
    (defaultSettings rm).temperature_default = 293.6 ∧
    (defaultSettings rm).energy_cutoff = [0.0, 1000.0, 0.0, 0.0] :=
  ⟨rfl, rfl, rfl, rfl⟩

theorem stepTemperatureMethod_error_st (root : XmlDoc) (st : LoadState) (e : Fatal)
    (h : stepTemperatureMethod root st = Except.error e) : e.st = st := by
  unfold stepTemperatureMethod at h
  cases hv : root.temperature_method with
  | none =>
    rw [hv] at h
    exact absurd h (by simp)
  | some v =>
    rw [hv] at h
    dsimp only at h
    by_cases h1 : trimLower v = "nearest"
    · rw [if_pos h1] at h
      exact absurd h (by simp)
    · by_cases h2 : trimLower v = "interpolation"
      · rw [if_neg h1, if_pos h2] at h
        exact absurd h (by simp)
      · rw [if_neg h1, if_neg h2] at h
        injection h with h
        rw [← h]

theorem stepCrossSections_some (root : XmlDoc) (st : LoadState) (v : String)
    (hcs : root.cross_sections = some v) :
    stepCrossSections root st =
      { s := { st.s with path_cross_sections := v },
        warnings := st.warnings ++ [crossSectionsWarning] } := by
  unfold stepCrossSections
  rw [hcs]

theorem stepMultipole_some (root : XmlDoc) (st : LoadState) (mp : String)
    (hmode : st.s.run_mode ≠ RunMode.RUN_MODE_PLOTTING)
    (hmp : root.multipole_library = some mp) :
    stepMultipole root st =
      { s := { st.s with path_multipole := normalize_path mp },
        warnings := st.warnings ++ [multipoleWarning] } := by
  unfold stepMultipole
  rw [if_pos hmode, hmp]

theorem stepMultipole_no_node (root : XmlDoc) (st : LoadState)
    (hmode : st.s.run_mode ≠ RunMode.RUN_MODE_PLOTTING)
    (hmp : root.multipole_library = none) :
    stepMultipole root st =
      { st with s := { st.s with path_multipole := normalize_path st.s.path_multipole } } := by
  unfold stepMultipole
  rw [if_pos hmode, hmp]

theorem stepOutput_some (root : XmlDoc) (st : LoadState) (op : String)
    (hout : root.output = some { path := some op }) :
    stepOutput root st =
      { st with s := { st.s with path_output := normalize_path op } } := by
  unfold stepOutput
  rw [hout]

theorem stepTemperatureDefault_some (root : XmlDoc) (st : LoadState) (td : ℚ)
    (htd : root.temperature_default = some td) :
    stepTemperatureDefault root st =
      { st with s := { st.s with temperature_default := td } } := by
  unfold stepTemperatureDefault
  rw [htd]

/-- The phases after the temperature method keep `temperature_method`. -/
theorem post_method_temperature_method (root : XmlDoc) (st : LoadState) :
    (stepSources root (stepTemperatureRange root (stepTemperatureMultipole root
        (stepTemperatureTolerance root st)))).s.temperature_method = st.s.temperature_method := by
  rw [(stepSources_frame root _).2.2.1,
      (stepTemperatureRange_frame root _).2.2.1,
      (stepTemperatureMultipole_frame root _).2.2.1,
      (stepTemperatureTolerance_frame root st).2.2.1]

/-- C3: an unrecognized (trimmed, lowercased) `temperature_method` token is
a fatal error whose message quotes the token verbatim; `"nearest"` maps to
`TEMPERATURE_NEAREST`, `"interpolation"` to `TEMPERATURE_INTERPOLATION`,
and no unknown token is silently mapped to a default. -/
theorem read_settings_temperature_method_spec (root : XmlDoc) (st : LoadState) (v : String)
    (hv : root.temperature_method = some v) :
    (trimLower v = "nearest" → ∀ res, read_settings root st = Except.ok res →
        res.s.temperature_method = TemperatureMethod.TEMPERATURE_NEAREST) ∧
    (trimLower v = "interpolation" → ∀ res, read_settings root st = Except.ok res →
        res.s.temperature_method = TemperatureMethod.TEMPERATURE_INTERPOLATION) ∧
    (trimLower v ≠ "nearest" → trimLower v ≠ "interpolation" →
        ∃ e, read_settings root st = Except.error e ∧
          e.msg = "Unknown temperature method: " ++ trimLower v) := by
  refine ⟨?_, ?_, ?_⟩
  · intro h1 res hok
    rw [read_settings_eq] at hok
    rw [stepTemperatureMethod_nearest root _ v hv h1] at hok
    dsimp only at hok
    injection hok with hok
    rw [← hok, post_method_temperature_method]
  · intro h2 res hok
    rw [read_settings_eq] at hok
    rw [stepTemperatureMethod_interpolation root _ v hv h2] at hok
    dsimp only at hok
    injection hok with hok
    rw [← hok, post_method_temperature_method]
  · intro h1 h2
    rw [read_settings_eq]
    rw [stepTemperatureMethod_unknown root _ v hv h1 h2]
    exact ⟨_, rfl, rfl⟩

/-- C3 applied to concrete documents: a bogus token aborts with the token
quoted in the message, and `"Interpolation"` maps to interpolation. -/
theorem read_settings_temperature_method_spec_witness :
    (read_settings bogusDoc initState = Except.error bogusErr ∧
      bogusErr.msg = "Unknown temperature method: " ++ trimLower " Bogus ") ∧
    interpRes.s.temperature_method = TemperatureMethod.TEMPERATURE_INTERPOLATION := by
  have hmap : interpRes.s.temperature_method = TemperatureMethod.TEMPERATURE_INTERPOLATION :=
    (read_settings_temperature_method_spec interpDoc initState "Interpolation" rfl).2.1
      (by decide) interpRes (by rfl)
  obtain ⟨e, he, hmsg⟩ :=
    (read_settings_temperature_method_spec bogusDoc initState " Bogus " rfl).2.2
      (by decide) (by decide)
  have hb : read_settings bogusDoc initState = Except.error bogusErr := by rfl
  rw [hb] at he
  injection he with he
  rw [← he] at hmsg
  exact ⟨⟨hb, hmsg⟩, hmap⟩

set_option maxRecDepth 4096 in
/-- C6: a deprecated `cross_sections` node loads successfully, emits its
deprecation warning exactly once, and stores the node's value verbatim
(no trailing-separator normalization on this field). -/
theorem read_settings_cross_sections_deprecated (root : XmlDoc) (st : LoadState) (v : String)
    (hcs : root.cross_sections = some v) (hw : st.warnings = [])
    (hmethod : tempMethodOkB root = true) :
    ∃ res, read_settings root st = Except.ok res ∧
      res.s.path_cross_sections = v ∧
      res.warnings.count crossSectionsWarning = 1 := by
  obtain ⟨st4, htm⟩ := stepTemperatureMethod_ok_of root
    (stepTemperatureDefault root (stepOutput root (stepMultipole root
      (stepCrossSections root st)))) hmethod
  rw [read_settings_eq, htm]
  refine ⟨_, rfl, ?_, ?_⟩
  · rw [(stepSources_frame root _).1,
        (stepTemperatureRange_frame root _).1,
        (stepTemperatureMultipole_frame root _).1,
        (stepTemperatureTolerance_frame root _).1,
        (stepTemperatureMethod_ok_frame root _ st4 htm).1,
        (stepTemperatureDefault_frame root _).1,
        (stepOutput_frame root _).1,
        (stepMultipole_frame root _).1,
        stepCrossSections_some root st v hcs]
  · have hfin : (stepSources root (stepTemperatureRange root (stepTemperatureMultipole root
        (stepTemperatureTolerance root st4)))).warnings =
        (stepMultipole root (stepCrossSections root st)).warnings := by
      rw [(stepSources_frame root _).2.2.2.2,
          (stepTemperatureRange_frame root _).2.2.2.2,
          (stepTemperatureMultipole_frame root _).2.2.2.2.2,
          (stepTemperatureTolerance_frame root _).2.2.2.2.2,
          (stepTemperatureMethod_ok_frame root _ st4 htm).2.2.2.2,
          (stepTemperatureDefault_frame root _).2.2.2.2.2,
          (stepOutput_frame root _).2.2.2.2.2]
    have hw1 : (stepCrossSections root st).warnings = [crossSectionsWarning] := by
      rw [stepCrossSections_some root st v hcs]
      dsimp only
      rw [hw]
      rfl
    rw [hfin]
    cases stepMultipole_warnings root (stepCrossSections root st) with
    | inl h =>
      rw [h, hw1]
      decide
    | inr h =>
      rw [h, hw1]
      decide

/-- C6 applied to a concrete document whose `cross_sections` value has no
trailing separator. -/
theorem read_settings_cross_sections_deprecated_witness :
    read_settings csDoc initState = Except.ok csRes ∧
    csRes.s.path_cross_sections = "xs_dir" ∧
    csRes.warnings.count crossSectionsWarning = 1 := by
  obtain ⟨res, hok, h1, h2⟩ :=
    read_settings_cross_sections_deprecated csDoc initState "xs_dir" rfl rfl (by rfl)
  have hb : read_settings csDoc initState = Except.ok csRes := by rfl
  have hre : Except.ok csRes = Except.ok res := hb.symm.trans hok
  injection hre with hre
  rw [hre]
  exact ⟨hok, h1, h2⟩

/-- C7: in plotting mode `read_settings` never touches `path_multipole`,
whether the load succeeds or aborts, and whether or not a
`multipole_library` node is present. -/
theorem read_settings_plotting_multipole (root : XmlDoc) (st : LoadState)
    (hmode : st.s.run_mode = RunMode.RUN_MODE_PLOTTING) :
    (∀ res, read_settings root st = Except.ok res →
        res.s.path_multipole = st.s.path_multipole) ∧
    (∀ e, read_settings root st = Except.error e →
        e.st.s.path_multipole = st.s.path_multipole) := by
  have hmode1 : (stepCrossSections root st).s.run_mode = RunMode.RUN_MODE_PLOTTING := by
    rw [(stepCrossSections_frame root st).2.2.1, hmode]
  have hskip : stepMultipole root (stepCrossSections root st) = stepCrossSections root st :=
    stepMultipole_plotting root _ hmode1
  constructor
  · intro res hok
    rw [read_settings_eq] at hok
    cases htm : stepTemperatureMethod root (stepTemperatureDefault root (stepOutput root
        (stepMultipole root (stepCrossSections root st)))) with
    | error e =>
      rw [htm] at hok
      exact absurd hok (by simp)
    | ok st4 =>
      rw [htm] at hok
      injection hok with hok
      rw [← hok]
      rw [(stepSources_frame root _).2.1,
          (stepTemperatureRange_frame root _).2.1,
          (stepTemperatureMultipole_frame root _).2.1,
          (stepTemperatureTolerance_frame root _).2.1,
          (stepTemperatureMethod_ok_frame root _ st4 htm).2.1,
          (stepTemperatureDefault_frame root _).2.1,
          (stepOutput_frame root _).2.1,
          hskip,
          (stepCrossSections_frame root st).1]
  · intro e herr
    rw [read_settings_eq] at herr
    cases htm : stepTemperatureMethod root (stepTemperatureDefault root (stepOutput root
        (stepMultipole root (stepCrossSections root st)))) with
    | ok st4 =>
      rw [htm] at herr
      exact absurd herr (by simp)
    | error e2 =>
      rw [htm] at herr
      injection herr with herr
      rw [← herr]
      rw [stepTemperatureMethod_error_st root _ e2 htm]
      rw [(stepTemperatureDefault_frame root _).2.1,
          (stepOutput_frame root _).2.1,
          hskip,
          (stepCrossSections_frame root st).1]

/-- C7 applied to a plotting run over a document that does carry a
`multipole_library` node. -/
theorem read_settings_plotting_multipole_witness :
    read_settings plotDoc plotInit = Except.ok plotRes ∧
    plotRes.s.path_multipole = plotInit.s.path_multipole := by
  have hok : read_settings plotDoc plotInit = Except.ok plotRes := by rfl
  exact ⟨hok, (read_settings_plotting_multipole plotDoc plotInit rfl).1 plotRes hok⟩

/-- C8: a `temperature_range` array with at least two entries assigns entry
0 to the lower and entry 1 to the upper bound, with no ordering check on
the pair. -/
theorem read_settings_temperature_range_assign (root : XmlDoc) (st : LoadState) (res : LoadState)
    (a b : ℚ) (rest : List ℚ)
    (hr : root.temperature_range = some (a :: b :: rest))
    (hok : read_settings root st = Except.ok res) :
    res.s.temperature_range = (a, b) := by
  rw [read_settings_eq] at hok
  cases htm : stepTemperatureMethod root (stepTemperatureDefault root (stepOutput root
      (stepMultipole root (stepCrossSections root st)))) with
  | error e =>
    rw [htm] at hok
    exact absurd hok (by simp)
  | ok st4 =>
    rw [htm] at hok
    injection hok with hok
    rw [← hok]
    rw [(stepSources_frame root _).2.2.2.1]
    unfold stepTemperatureRange
    rw [hr]
    rfl

/-- C8 applied to a descending concrete pair, which is accepted unchecked. -/
theorem read_settings_temperature_range_assign_witness :
    read_settings rangeDoc initState = Except.ok rangeRes ∧
    rangeRes.s.temperature_range = (5, 1) ∧ (1 : ℚ) < 5 := by
  have hok : read_settings rangeDoc initState = Except.ok rangeRes := by rfl
  exact ⟨hok,
    read_settings_temperature_range_assign rangeDoc initState rangeRes 5 1 [] rfl hok,
    by norm_num⟩

/-- C9: in a non-plotting run with no `multipole_library` node and the
default empty `path_multipole`, `read_settings` still normalizes the field,
leaving `"/"` rather than an unset path. -/
theorem read_settings_multipole_slash_no_node (root : XmlDoc) (st : LoadState) (res : LoadState)
    (hmode : st.s.run_mode ≠ RunMode.RUN_MODE_PLOTTING)
    (hmp : root.multipole_library = none)
    (hpath : st.s.path_multipole = "")
    (hok : read_settings root st = Except.ok res) :
    res.s.path_multipole = "/" := by
  have hmode1 : (stepCrossSections root st).s.run_mode ≠ RunMode.RUN_MODE_PLOTTING := by
    rw [(stepCrossSections_frame root st).2.2.1]
    exact hmode
  rw [read_settings_eq] at hok
  cases htm : stepTemperatureMethod root (stepTemperatureDefault root (stepOutput root
      (stepMultipole root (stepCrossSections root st)))) with
  | error e =>
    rw [htm] at hok
    exact absurd hok (by simp)
  | ok st4 =>
    rw [htm] at hok
    injection hok with hok
    rw [← hok]
    rw [(stepSources_frame root _).2.1,
        (stepTemperatureRange_frame root _).2.1,
        (stepTemperatureMultipole_frame root _).2.1,
        (stepTemperatureTolerance_frame root _).2.1,
        (stepTemperatureMethod_ok_frame root _ st4 htm).2.1,
        (stepTemperatureDefault_frame root _).2.1,
        (stepOutput_frame root _).2.1,
        stepMultipole_no_node root _ hmode1 hmp]
    dsimp only
    rw [(stepCrossSections_frame root st).1, hpath]
    rfl

/-- C9 applied to the empty document in a non-plotting run starting from
the default (empty) multipole path. -/
theorem read_settings_multipole_slash_no_node_witness :
    read_settings emptyDoc initState = Except.ok emptyDocRes ∧
    emptyDocRes.s.path_multipole = "/" ∧
    initState.s.path_multipole = "" := by
  have hok : read_settings emptyDoc initState = Except.ok emptyDocRes := by rfl
  exact ⟨hok,
    read_settings_multipole_slash_no_node emptyDoc initState emptyDocRes (by decide) rfl rfl hok,
    rfl⟩

/-- C10: the unknown-temperature-method abort is not atomic: at the moment
of the fatal error, the path fields and `temperature_default` already carry
the document's values. -/
theorem read_settings_fatal_partial_state (root : XmlDoc) (st : LoadState)
    (cs mp op : String) (td : ℚ) (v : String)
    (hmode : st.s.run_mode ≠ RunMode.RUN_MODE_PLOTTING)
    (hcs : root.cross_sections = some cs)
    (hmp : root.multipole_library = some mp)
    (hout : root.output = some { path := some op })
    (htd : root.temperature_default = some td)
    (hv : root.temperature_method = some v)
    (h1 : trimLower v ≠ "nearest") (h2 : trimLower v ≠ "interpolation") :
    ∃ e, read_settings root st = Except.error e ∧
      e.st.s.path_cross_sections = cs ∧
      e.st.s.path_multipole = normalize_path mp ∧
      e.st.s.path_output = normalize_path op ∧
      e.st.s.temperature_default = td := by
  have hmode1 : (stepCrossSections root st).s.run_mode ≠ RunMode.RUN_MODE_PLOTTING := by
    rw [(stepCrossSections_frame root st).2.2.1]
    exact hmode
  rw [read_settings_eq]
  rw [stepTemperatureMethod_unknown root _ v hv h1 h2]
  refine ⟨_, rfl, ?_, ?_, ?_, ?_⟩
  · dsimp only
    rw [(stepTemperatureDefault_frame root _).1,
        (stepOutput_frame root _).1,
        (stepMultipole_frame root _).1,
        stepCrossSections_some root st cs hcs]
  · dsimp only
    rw [(stepTemperatureDefault_frame root _).2.1,
        (stepOutput_frame root _).2.1,
        stepMultipole_some root _ mp hmode1 hmp]
  · dsimp only
    rw [(stepTemperatureDefault_frame root _).2.2.1,
        stepOutput_some root _ op hout]
  · dsimp only
    rw [stepTemperatureDefault_some root _ td htd]

/-- C10 applied to a concrete document: at the fatal error, every earlier
field differs from its compile-time default. -/
theorem read_settings_fatal_partial_state_witness :
    read_settings fullBadDoc initState = Except.error fullBadErr ∧
    fullBadErr.st.s.path_cross_sections = "xs.xml" ∧
    fullBadErr.st.s.path_multipole = normalize_path "wmp" ∧
    fullBadErr.st.s.path_output = normalize_path "out" ∧
    fullBadErr.st.s.temperature_default = 600 := by
  obtain ⟨e, he, p1, p2, p3, p4⟩ :=
    read_settings_fatal_partial_state fullBadDoc initState "xs.xml" "wmp" "out" 600 "celsius"
      (by decide) rfl rfl rfl rfl rfl (by decide) (by decide)
  have hb : read_settings fullBadDoc initState = Except.error fullBadErr := by rfl
  have hre : Except.error fullBadErr = Except.error e := hb.symm.trans he
  injection hre with hre
  rw [hre]
  exact ⟨he, p1, p2, p3, p4⟩

/-- C5 applied at a concrete run mode. -/
theorem default_settings_values_witness :
    (defaultSettings RunMode.RUN_MODE_EIGENVALUE).temperature_method =
        TemperatureMethod.TEMPERATURE_NEAREST ∧
    (defaultSettings RunMode.RUN_MODE_EIGENVALUE).temperature_tolerance = 10.0 ∧
    (defaultSettings RunMode.RUN_MODE_EIGENVALUE).temperature_default = 293.6 ∧
    (defaultSettings RunMode.RUN_MODE_EIGENVALUE).energy_cutoff = [0.0, 1000.0, 0.0, 0.0] :=
  default_settings_values RunMode.RUN_MODE_EIGENVALUE
